import Mathlib

/-!
Shallow embedding of the spotify-datawarehouse repository
(src/sql_queries.py, src/create_tables.py, src/etl.py, src/redshift_iac.py).

The SQL statements are embedded as the literal strings the Python module
defines; the two COPY statements, which `str.format` fills from the
configuration file, become functions of a `Config` record.  The cloud-facing
functions of redshift_iac.py are embedded as pure functions over an
`AwsEnv` record that fixes the outcome of each external call (boto3 /
requests), returning the Python function's result (`Except PyErr`) together
with the trace of external actions and prints the call performs.
-/

namespace SpotifyDWH

/-- The configuration file dwh.cfg as the scripts read it: sections AWS,
CLUSTER, IAM_ROLE and S3 (only the keys the embedded code uses). -/
structure Config where
  cluster_id : String
  db_name : String
  db_user : String
  db_password : String
  db_port : Int
  log_data : String
  song_data : String
  log_jsonpath : String
  iam_role_arn : String
  deriving Repr, DecidableEq

/-! ## sql_queries.py: DROP TABLES -/

def staging_events_table_drop : String := "DROP TABLE IF EXISTS staging_events"

def staging_songs_table_drop : String := "DROP TABLE IF EXISTS staging_songs"

def songplay_table_drop : String := "DROP TABLE IF EXISTS songplays"

def user_table_drop : String := "DROP TABLE IF EXISTS users"

def song_table_drop : String := "DROP TABLE IF EXISTS songs"

def artist_table_drop : String := "DROP TABLE IF EXISTS artists"

def time_table_drop : String := "DROP TABLE IF EXISTS time"

/-! ## sql_queries.py: CREATE TABLES -/

def staging_events_table_create : String := "
        CREATE TABLE IF NOT EXISTS staging_events (
            artist VARCHAR,
            auth VARCHAR,
            firstName VARCHAR,
            gender CHAR,
            itemInSession INT,
            lastName VARCHAR,
            length NUMERIC,
            level VARCHAR,
            location VARCHAR,
            method VARCHAR,
            page VARCHAR,
            registration VARCHAR,
            sessionId BIGINT,
            song VARCHAR,
            status INT,
            ts TIMESTAMP,
            userAgent VARCHAR,
            userId BIGINT
        )
"

def staging_songs_table_create : String := "
        CREATE TABLE IF NOT EXISTS staging_songs (
            num_songs INT,
            artist_id VARCHAR,
            artist_latitude FLOAT,
            artist_longitude FLOAT,
            artist_location VARCHAR,
            artist_name VARCHAR,
            song_id VARCHAR,
            title VARCHAR,
            duration NUMERIC,
            year INT
        )
"

def songplay_table_create : String := "
        CREATE TABLE IF NOT EXISTS songplays (
            songplay_id BIGINT IDENTITY (0,1) PRIMARY KEY,
            start_time TIMESTAMP NOT NULL REFERENCES time,
            user_id BIGINT NOT NULL REFERENCES users,
            level VARCHAR (4) NOT NULL,
            song_id VARCHAR REFERENCES songs,
            artist_id VARCHAR REFERENCES artists,
            session_id INT,
            location VARCHAR,
            user_agent VARCHAR);
"

def user_table_create : String := "
        CREATE TABLE IF NOT EXISTS users (user_id BIGINT PRIMARY KEY,
                                          first_name VARCHAR NOT NULL,
                                          last_name VARCHAR NOT NULL,
                                          gender CHAR NOT NULL,
                                          level VARCHAR (4) NOT NULL);
"

def song_table_create : String := "
        CREATE TABLE IF NOT EXISTS songs (song_id VARCHAR PRIMARY KEY,
                                          title VARCHAR NOT NULL,
                                          artist_id VARCHAR,
                                          year INT,
                                          duration NUMERIC NOT NULL);
"

def artist_table_create : String := "
        CREATE TABLE IF NOT EXISTS artists (artist_id VARCHAR PRIMARY KEY,
                                            name VARCHAR NOT NULL,
                                            location VARCHAR,
                                            latitude FLOAT,
                                            longitude FLOAT);
"

def time_table_create : String := "
        CREATE TABLE IF NOT EXISTS time (start_time TIMESTAMP PRIMARY KEY,
                                         hour INT,
                                         day INT,
                                         week INT,
                                         month INT,
                                         year INT,
                                         weekday INT);
"

/-! ## sql_queries.py: STAGING TABLES (COPY)

The source builds these with `"...{}...".format(config.get(...))`; here the
formatted holes become explicit string concatenation over the `Config`. -/

def staging_events_copy (cfg : Config) : String :=
  "
        COPY staging_events FROM " ++ cfg.log_data ++ "
        credentials 'aws_iam_role=" ++ cfg.iam_role_arn ++ "'
        JSON " ++ cfg.log_jsonpath ++ " compupdate off
        region 'us-west-2'
        timeformat as 'epochmillisecs';
"

def staging_songs_copy (cfg : Config) : String :=
  "
        COPY staging_songs FROM " ++ cfg.song_data ++ "
        credentials 'aws_iam_role=" ++ cfg.iam_role_arn ++ "'
        JSON 'auto' truncatecolumns compupdate off
        region 'us-west-2';
"

/-! ## sql_queries.py: FINAL TABLES (INSERT ... SELECT) -/

def songplay_table_insert : String := "
        INSERT INTO songplays (start_time, user_id, level, song_id, artist_id,
                               session_id, location, user_agent)
        SELECT e.ts AS start_time,
               e.userId AS user_id,
               e.level,
               s.song_id AS song_id,
               s.artist_id AS artist_id,
               e.sessionId AS session_id,
               e.location,
               e.userAgent AS user_agent
        FROM staging_events e
        JOIN staging_songs s ON e.artist = s.artist_name
        AND e.length = s.duration
        AND e.song = s.title
"

def user_table_insert : String := "
        INSERT INTO users (user_id, first_name, last_name, gender, level)
        SELECT DISTINCT userId AS user_id,
               firstName AS first_name,
               lastName AS last_name,
               gender,
               level
        FROM staging_events
        WHERE page = 'NextSong'
        AND user_id IS NOT null
        AND ts = (SELECT max(ts) FROM staging_events WHERE user_id = userId);
"

def song_table_insert : String := "
        INSERT INTO songs (song_id, title, artist_id, year, duration)
        SELECT DISTINCT song_id,
               title,
               artist_id,
               year,
               duration
        FROM staging_songs
"

def artist_table_insert : String := "
        INSERT INTO artists (artist_id, name, location, latitude, longitude)
        SELECT DISTINCT artist_id,
               artist_name AS name,
               artist_location AS location,
               artist_latitude AS latitude,
               artist_longitude AS longitude
        FROM staging_songs
"

def time_table_insert : String := "
        INSERT INTO time (start_time, hour, day, week, month, year, weekday)
        SELECT DISTINCT ts AS start_time,
               EXTRACT(hour FROM start_time) AS hour,
               EXTRACT(day FROM start_time) AS day,
               EXTRACT(week FROM start_time) AS week,
               EXTRACT(month FROM start_time) AS month,
               EXTRACT(year FROM start_time) AS year,
               EXTRACT(DOW FROM start_time) AS weekday
        FROM staging_events
"

/-! ## sql_queries.py: QUERY LISTS -/

def create_table_queries : List String :=
  [staging_events_table_create, staging_songs_table_create, user_table_create,
   song_table_create, artist_table_create, time_table_create, songplay_table_create]

def drop_table_queries : List String :=
  [staging_events_table_drop, staging_songs_table_drop, songplay_table_drop,
   user_table_drop, song_table_drop, artist_table_drop, time_table_drop]

def copy_table_queries (cfg : Config) : List String :=
  [staging_events_copy cfg, staging_songs_copy cfg]

def insert_table_queries : List String :=
  [songplay_table_insert, user_table_insert, song_table_insert,
   artist_table_insert, time_table_insert]

/-! ## Extracting the target table of an INSERT statement

`insertTarget` scans a SQL string for its first occurrence of
"INSERT INTO " and returns the table name that follows (the characters up
to the next space, parenthesis or newline).  It is used to state which
table each member of `insert_table_queries` inserts into. -/

/-- `charsMatch pat cs` is true when `pat` is an initial segment of `cs`. -/
def charsMatch : List Char → List Char → Bool
  | [], _ => true
  | _ :: _, [] => false
  | p :: ps, c :: cs => p == c && charsMatch ps cs

/-- The characters following the first occurrence of `pat`, or `none`. -/
def afterFirst (pat : List Char) : List Char → Option (List Char)
  | [] => if pat.isEmpty then some [] else none
  | c :: cs =>
    if charsMatch pat (c :: cs) then some ((c :: cs).drop pat.length)
    else afterFirst pat cs

/-- The longest initial run of characters before a space, `(` or newline. -/
def takeWord : List Char → List Char
  | [] => []
  | c :: cs => if c == ' ' || c == '(' || c == '\n' then [] else c :: takeWord cs

/-- The table named right after the first "INSERT INTO " of a SQL string. -/
def insertTarget (q : String) : Option String :=
  (afterFirst "INSERT INTO ".data q.data).map (fun r => String.mk (takeWord r))

/-! ## redshift_iac.py: the cloud environment

Every boto3 / requests call the script makes is modelled by a field of
`AwsEnv` fixing that call's outcome (each call site is executed at most once
per entry point, so one outcome per call suffices).  `Except.error msg`
stands for the call raising an exception whose printed form is `msg`. -/

deriving instance DecidableEq for Except

/-- One cluster record of a describe_clusters response: the two fields the
script reads, response["Clusters"][0]["ClusterStatus"] and ["Endpoint"]["Address"]. -/
structure ClusterDesc where
  clusterStatus : String
  endpointAddress : String
  deriving Repr, DecidableEq

/-- Outcomes of the external calls redshift_iac.py can make. -/
structure AwsEnv where
  /-- iam.create_role: ok returns the created role's name. -/
  createRoleResult : Except String String
  /-- iam.attach_role_policy. -/
  attachRolePolicyResult : Except String Unit
  /-- iam.get_role(...)["Role"]["Arn"]: ok returns the ARN. -/
  getRoleArnResult : Except String String
  /-- iam.detach_role_policy. -/
  detachRolePolicyResult : Except String Unit
  /-- iam.delete_role: ok returns the response's printed form. -/
  deleteRoleResult : Except String String
  /-- ec2_client.create_security_group: ok returns response["GroupId"]. -/
  createSecurityGroupResult : Except String String
  /-- requests.get("https://ifconfig.me") with raise_for_status folded in:
  ok returns the response body. -/
  httpGetIpResult : Except String String
  /-- security_group.authorize_ingress. -/
  authorizeIngressResult : Except String Unit
  /-- redshift.create_cluster. -/
  createClusterResult : Except String Unit
  /-- redshift.describe_clusters: ok returns the first cluster record. -/
  describeClustersResult : Except String ClusterDesc
  /-- redshift.delete_cluster. -/
  deleteClusterResult : Except String Unit
  /-- ec2_resource.security_groups.filter(group-name = ...): ok returns the
  ids of the matching groups. -/
  describeSecurityGroupsResult : Except String (List String)
  /-- security_group_obj.delete(): ok returns the response's printed form. -/
  deleteSecurityGroupResult : Except String String
  deriving Repr, DecidableEq

/-- A Python exception escaping one of the embedded functions. -/
inductive PyErr where
  /-- a boto3 / requests exception propagating uncaught -/
  | aws (msg : String)
  /-- a raise Exception(msg) of the script itself -/
  | exn (msg : String)
  /-- an UnboundLocalError: a local read before any assignment reached it -/
  | unboundLocal (varName : String)
  deriving Repr, DecidableEq

/-- The externally visible steps of a run: each external call the script
issues, each line it prints, each config-file write, each sleep. -/
inductive Action where
  | printed (msg : String)
  | createRoleCall (roleName : String)
  | attachRolePolicyCall (roleName policyArn : String)
  | getRoleCall (roleName : String)
  | detachRolePolicyCall (roleName policyArn : String)
  | deleteRoleCall (roleName : String)
  | createSecurityGroupCall (description groupName : String)
  | describeSecurityGroupsCall (groupName : String)
  | deleteSecurityGroupCall (groupName : String)
  | httpGetCall (url : String)
  | authorizeIngressCall (groupName cidrIp ipProtocol : String) (fromPort toPort : Int)
  | createClusterCall (clusterType nodeType : String) (numberOfNodes : Int)
      (dbName clusterIdentifier masterUsername masterUserPassword : String)
      (vpcSecurityGroupIds iamRoles : List String)
  | describeClustersCall (clusterIdentifier : String)
  | deleteClusterCall (clusterIdentifier : String) (skipFinalClusterSnapshot : Bool)
  | sleepCall (seconds : Nat)
  | configWrite (sec key value : String)
  deriving Repr, DecidableEq

/-- The policy ARN hard-coded at both attach and detach sites. -/
def s3ReadOnlyPolicyArn : String := "arn:aws:iam::aws:policy/AmazonS3ReadOnlyAccess"

/-- A boto3 ec2 SecurityGroup resource object as the script uses it:
its GroupId and its (lazily fetched) GroupName. -/
structure SecurityGroup where
  id : String
  group_name : String
  deriving Repr, DecidableEq

/-- create_iam_role (redshift_iac.py, default iam_RoleName "dwh_iam_role"):
try create_role, on exception print it and continue; then
attach_role_policy (uncaught), then get_role to read back the ARN
(uncaught), print and return the ARN. -/
def create_iam_role (env : AwsEnv) (iam_RoleName : String) :
    Except PyErr String × List Action :=
  let t0 := [Action.printed ("Creating a new IAM Role: " ++ iam_RoleName),
             Action.createRoleCall iam_RoleName]
  let t1 := match env.createRoleResult with
    | Except.ok _ => t0
    | Except.error e => t0 ++ [Action.printed e]
  let t2 := t1 ++ [Action.attachRolePolicyCall iam_RoleName s3ReadOnlyPolicyArn]
  match env.attachRolePolicyResult with
  | Except.error e => (Except.error (PyErr.aws e), t2)
  | Except.ok _ =>
    let t3 := t2 ++ [Action.getRoleCall iam_RoleName]
    match env.getRoleArnResult with
    | Except.error e => (Except.error (PyErr.aws e), t3)
    | Except.ok roleArn =>
      (Except.ok roleArn,
       t3 ++ [Action.printed
         ("The ARN of the IAM role was successfully created!\n" ++ roleArn)])

/-- delete_iam_role (redshift_iac.py, default iam_RoleName "dwh_iam_role"):
print, detach_role_policy, delete_role, print and return the response.
No try/except anywhere: either call raising propagates to the caller. -/
def delete_iam_role (env : AwsEnv) (iam_RoleName : String) :
    Except PyErr String × List Action :=
  let t0 := [Action.printed ("Deleting IAM role named " ++ iam_RoleName),
             Action.detachRolePolicyCall iam_RoleName s3ReadOnlyPolicyArn]
  match env.detachRolePolicyResult with
  | Except.error e => (Except.error (PyErr.aws e), t0)
  | Except.ok _ =>
    let t1 := t0 ++ [Action.deleteRoleCall iam_RoleName]
    match env.deleteRoleResult with
    | Except.error e => (Except.error (PyErr.aws e), t1)
    | Except.ok resp => (Except.ok resp, t1 ++ [Action.printed resp])

/-- create_security_group (redshift_iac.py, default group_name
"redshift_security_group"): inside try, create the group, bind
security_group to the ec2 resource object and print; the except branch
prints the error and falls through to `return security_group`, which in
Python raises UnboundLocalError because the local was never assigned on
that path (modelled by the `PyErr.unboundLocal` result). -/
def create_security_group (env : AwsEnv) (group_name : String) :
    Except PyErr SecurityGroup × List Action :=
  let t0 := [Action.createSecurityGroupCall "Authorise redshift cluster access" group_name]
  match env.createSecurityGroupResult with
  | Except.ok gid =>
    (Except.ok { id := gid, group_name := group_name },
     t0 ++ [Action.printed ("Security group " ++ gid ++ " created successfully."),
            Action.printed ("Security group object: " ++ gid)])
  | Except.error e =>
    (Except.error (PyErr.unboundLocal "security_group"),
     t0 ++ [Action.printed ("Error creating security group: " ++ e)])

/-- get_public_ip (redshift_iac.py): GET https://ifconfig.me, return the
stripped body; on a RequestException (raise_for_status included) print the
error and return None. -/
def get_public_ip (env : AwsEnv) : Option String × List Action :=
  let t0 := [Action.httpGetCall "https://ifconfig.me"]
  match env.httpGetIpResult with
  | Except.ok body => (some body.trim, t0)
  | Except.error e => (none, t0 ++ [Action.printed ("Error getting public IP: " ++ e)])

/-- create_redshift_cluster (redshift_iac.py): print, then create_cluster
inside try; the except branch prints the exception.  The function always
returns None, so no exception reaches the caller. -/
def create_redshift_cluster (env : AwsEnv) (cfg : Config)
    (roleArn SecurityGroupID : String) (cluster_type node_type : String)
    (num_nodes : Int) : List Action :=
  let t0 := [Action.printed "Creating Redshift Cluster",
             Action.createClusterCall cluster_type node_type num_nodes
               cfg.db_name cfg.cluster_id cfg.db_user cfg.db_password
               [SecurityGroupID] [roleArn]]
  match env.createClusterResult with
  | Except.ok _ => t0
  | Except.error e => t0 ++ [Action.printed e]

/-- delete_security_group (redshift_iac.py, default group_name
"redshift_security_group"): inside one try, list the groups matching the
name, delete the first when one exists, print "No security group found"
otherwise; the except branch prints any error.  Every path returns None:
the function never raises. -/
def delete_security_group (env : AwsEnv) (group_name : String) :
    Except PyErr Unit × List Action :=
  let t0 := [Action.describeSecurityGroupsCall group_name]
  match env.describeSecurityGroupsResult with
  | Except.error e =>
    (Except.ok (), t0 ++ [Action.printed ("Error getting security group object: " ++ e)])
  | Except.ok [] =>
    (Except.ok (), t0 ++ [Action.printed ("No security group found with name " ++ group_name)])
  | Except.ok (gid :: _) =>
    let t1 := t0 ++ [Action.printed ("Security group object for " ++ group_name ++ ": " ++ gid),
                     Action.printed ("Deleting security group: " ++ group_name),
                     Action.deleteSecurityGroupCall group_name]
    match env.deleteSecurityGroupResult with
    | Except.ok resp => (Except.ok (), t1 ++ [Action.printed resp])
    | Except.error e =>
      (Except.ok (), t1 ++ [Action.printed ("Error getting security group object: " ++ e)])

/-- get_cluster_info (redshift_iac.py): describe_clusters with the
hard-coded identifier "dwhCluster"; print the status; return
(status, endpoint address) when the status is "available", (status, None)
otherwise; on any exception print it and return (None, None). -/
def get_cluster_info (env : AwsEnv) :
    (Option String × Option String) × List Action :=
  let t0 := [Action.describeClustersCall "dwhCluster"]
  match env.describeClustersResult with
  | Except.error e =>
    ((none, none), t0 ++ [Action.printed ("Error getting cluster status: " ++ e)])
  | Except.ok desc =>
    let t1 := t0 ++ [Action.printed ("Cluster status: " ++ desc.clusterStatus)]
    if desc.clusterStatus == "available" then
      ((some desc.clusterStatus, some desc.endpointAddress), t1)
    else
      ((some desc.clusterStatus, none), t1)

/-- delete_redshift_cluster (redshift_iac.py): delete_cluster with
SkipFinalClusterSnapshot=True inside try, printing either the progress
line or the caught error.  The function always returns None. -/
def delete_redshift_cluster (env : AwsEnv) (cluster_identifier : String) :
    Except PyErr Unit × List Action :=
  let t0 := [Action.deleteClusterCall cluster_identifier true]
  match env.deleteClusterResult with
  | Except.ok _ =>
    (Except.ok (), t0 ++ [Action.printed ("Deleting cluster " ++ cluster_identifier ++ "...")])
  | Except.error e =>
    (Except.ok (), t0 ++ [Action.printed ("Error deleting cluster: " ++ e)])

/-- init (redshift_iac.py): create_iam_role, create_security_group,
get_public_ip; when an IP came back, authorize_ingress on the group
(uncaught) for that IP /32 and the configured port; when no IP came back,
raise Exception("Failed to retrieve public IP address"); then
create_redshift_cluster (num_nodes=2) and write the role ARN into the
config file. -/
def init (env : AwsEnv) (cfg : Config) : Except PyErr Unit × List Action :=
  match create_iam_role env "dwh_iam_role" with
  | (Except.error e, t) => (Except.error e, t)
  | (Except.ok iam_role, t1) =>
    match create_security_group env "redshift_security_group" with
    | (Except.error e, t) => (Except.error e, t1 ++ t)
    | (Except.ok sec_group, t2) =>
      match get_public_ip env with
      | (some public_ip, t3) =>
        let tA := t1 ++ t2 ++ t3
          ++ [Action.printed ("Public IP address: " ++ public_ip),
              Action.authorizeIngressCall sec_group.group_name (public_ip ++ "/32")
                "TCP" cfg.db_port cfg.db_port]
        match env.authorizeIngressResult with
        | Except.error e => (Except.error (PyErr.aws e), tA)
        | Except.ok _ =>
          let tB := tA ++ [Action.printed "Open Incoming TCP port to current public IP address"]
            ++ create_redshift_cluster env cfg iam_role sec_group.id "multi-node" "dc2.large" 2
          (Except.ok (),
           tB ++ [Action.configWrite "IAM_ROLE" "ARN" iam_role,
                  Action.printed "Updated dwh.cfg with IAM ARN"])
      | (none, t3) =>
        (Except.error (PyErr.exn "Failed to retrieve public IP address"), t1 ++ t2 ++ t3)

/-- status (redshift_iac.py): get_cluster_info; when the returned status is
"available", print the ready line and write the endpoint into the config
file under CLUSTER/host. -/
def status (env : AwsEnv) : Except PyErr Unit × List Action :=
  match get_cluster_info env with
  | ((cluster_status, dwh_endpoint), t0) =>
    if cluster_status == some "available" then
      (Except.ok (),
       t0 ++ [Action.printed "You are ready to use your Redshift cluster!",
              Action.configWrite "CLUSTER" "host" (dwh_endpoint.getD ""),
              Action.printed "Updated dwh.cfg with host"])
    else (Except.ok (), t0)

/-- delete (redshift_iac.py): delete_iam_role, delete_redshift_cluster on
the configured CLUSTER_ID, time.sleep(5), delete_security_group.  Only
delete_iam_role can raise; if it does, the remaining steps never run. -/
def delete (env : AwsEnv) (cfg : Config) : Except PyErr Unit × List Action :=
  match delete_iam_role env "dwh_iam_role" with
  | (Except.error e, t) => (Except.error e, t)
  | (Except.ok _, t1) =>
    let r2 := delete_redshift_cluster env cfg.cluster_id
    let r4 := delete_security_group env "redshift_security_group"
    (Except.ok (), t1 ++ r2.2 ++ [Action.sleepCall 5] ++ r4.2)

/-- The cluster identifiers a trace asks describe_clusters about. -/
def describedClusterIds (t : List Action) : List String :=
  t.filterMap (fun a => match a with
    | Action.describeClustersCall cid => some cid
    | _ => none)

/-- The cluster identifiers a trace asks delete_cluster to delete. -/
def deletedClusterIds (t : List Action) : List String :=
  t.filterMap (fun a => match a with
    | Action.deleteClusterCall cid _ => some cid
    | _ => none)

/-- The external calls of a trace, print lines and config writes dropped. -/
def callsOf (t : List Action) : List Action :=
  t.filter (fun a => match a with
    | Action.printed _ => false
    | Action.configWrite _ _ _ => false
    | _ => true)

/-! ## create_tables.py / etl.py: the SQL runners

Each runner is the same loop: `for query in LIST: cur.execute(query);
conn.commit()`.  `run_queries` embeds that loop over an execution oracle
`ex` giving each statement's outcome; `cur.execute` raising ends the loop
with the exception propagating (the runners install no handler). -/

/-- One effect on the open SQL connection. -/
inductive DbAction where
  | execute (q : String)
  | commit
  deriving Repr, DecidableEq

/-- The runners' shared loop: execute each statement in list order,
commit after each; a failing execute stops the loop and the error
propagates. -/
def run_queries (ex : String → Except String Unit) :
    List String → Except String Unit × List DbAction
  | [] => (Except.ok (), [])
  | q :: rest =>
    match ex q with
    | Except.error e => (Except.error e, [DbAction.execute q])
    | Except.ok _ =>
      let r := run_queries ex rest
      (r.1, DbAction.execute q :: DbAction.commit :: r.2)

/-- drop_tables (create_tables.py): run drop_table_queries in order. -/
def drop_tables (ex : String → Except String Unit) :
    Except String Unit × List DbAction :=
  run_queries ex drop_table_queries

/-- create_tables (create_tables.py): run create_table_queries in order. -/
def create_tables (ex : String → Except String Unit) :
    Except String Unit × List DbAction :=
  run_queries ex create_table_queries

/-- load_staging_tables (etl.py): run copy_table_queries in order. -/
def load_staging_tables (ex : String → Except String Unit) (cfg : Config) :
    Except String Unit × List DbAction :=
  run_queries ex (copy_table_queries cfg)

/-- insert_tables (etl.py): run insert_table_queries in order. -/
def insert_tables (ex : String → Except String Unit) :
    Except String Unit × List DbAction :=
  run_queries ex insert_table_queries

/-- The trace of a fully successful run: each statement executed then
committed, in list order. -/
def commitAfterEach (qs : List String) : List DbAction :=
  qs.flatMap (fun q => [DbAction.execute q, DbAction.commit])

/-! ## Relational semantics of the songplays INSERT ... SELECT

`songplay_table_insert` joins staging_events to staging_songs on
e.artist = s.artist_name AND e.length = s.duration AND e.song = s.title.
The staging rows carry the columns of the two staging tables (every column
nullable, as the CREATE TABLE statements declare them); SQL equality with a
NULL operand is not TRUE, so `nullEq` holds only for two non-NULL equal
values. -/

/-- One row of staging_events (columns of staging_events_table_create;
TIMESTAMP as epoch milliseconds, NUMERIC as a rational). -/
structure StagingEventRow where
  artist : Option String
  auth : Option String
  firstName : Option String
  gender : Option Char
  itemInSession : Option Int
  lastName : Option String
  length : Option Rat
  level : Option String
  location : Option String
  method : Option String
  page : Option String
  registration : Option String
  sessionId : Option Int
  song : Option String
  status : Option Int
  ts : Option Int
  userAgent : Option String
  userId : Option Int
  deriving DecidableEq

/-- One row of staging_songs (columns of staging_songs_table_create). -/
structure StagingSongRow where
  num_songs : Option Int
  artist_id : Option String
  artist_latitude : Option Rat
  artist_longitude : Option Rat
  artist_location : Option String
  artist_name : Option String
  song_id : Option String
  title : Option String
  duration : Option Rat
  year : Option Int
  deriving DecidableEq

/-- One row the songplays INSERT produces (the eight inserted columns;
songplay_id is IDENTITY-generated and not part of the SELECT). -/
structure SongplayRow where
  start_time : Option Int
  user_id : Option Int
  level : Option String
  song_id : Option String
  artist_id : Option String
  session_id : Option Int
  location : Option String
  user_agent : Option String
  deriving DecidableEq

/-- SQL three-valued equality restricted to TRUE: both operands non-NULL
and equal. -/
def nullEq {α : Type} [DecidableEq α] : Option α → Option α → Bool
  | some x, some y => decide (x = y)
  | _, _ => false

/-- The ON condition of the songplays INSERT:
e.artist = s.artist_name AND e.length = s.duration AND e.song = s.title. -/
def songplayJoinCond (e : StagingEventRow) (s : StagingSongRow) : Bool :=
  nullEq e.artist s.artist_name && nullEq e.length s.duration && nullEq e.song s.title

/-- The SELECT list of the songplays INSERT applied to one joined pair. -/
def songplayOf (e : StagingEventRow) (s : StagingSongRow) : SongplayRow :=
  { start_time := e.ts, user_id := e.userId, level := e.level,
    song_id := s.song_id, artist_id := s.artist_id, session_id := e.sessionId,
    location := e.location, user_agent := e.userAgent }

/-- The multiset of rows the songplays INSERT ... SELECT adds: one row per
(event, song) pair satisfying the join condition. -/
def songplayRows (events : List StagingEventRow) (songs : List StagingSongRow) :
    List SongplayRow :=
  events.flatMap (fun e => (songs.filter (fun s => songplayJoinCond e s)).map
    (fun s => songplayOf e s))

/-! ## Concrete configurations and environments for witnesses and
counterexamples -/

/-- A sample configuration whose cluster_id differs from "dwhCluster". -/
def cfgX : Config :=
  { cluster_id := "my-dwh-cluster", db_name := "dwh", db_user := "dwhuser",
    db_password := "Passw0rd", db_port := 5439,
    log_data := "s3://udacity-dend/log_data",
    song_data := "s3://udacity-dend/song_data",
    log_jsonpath := "s3://udacity-dend/log_json_path.json",
    iam_role_arn := "arn:aws:iam::123456789012:role/dwh_iam_role" }

/-- An environment in which every external call succeeds. -/
def envAllOk : AwsEnv :=
  { createRoleResult := Except.ok "dwh_iam_role",
    attachRolePolicyResult := Except.ok (),
    getRoleArnResult := Except.ok "arn:aws:iam::123456789012:role/dwh_iam_role",
    detachRolePolicyResult := Except.ok (),
    deleteRoleResult := Except.ok "role deleted",
    createSecurityGroupResult := Except.ok "sg-0a1b2c",
    httpGetIpResult := Except.ok "88.120.10.4",
    authorizeIngressResult := Except.ok (),
    createClusterResult := Except.ok (),
    describeClustersResult := Except.ok
      { clusterStatus := "available",
        endpointAddress := "dwhcluster.abc123.us-west-2.redshift.amazonaws.com" },
    deleteClusterResult := Except.ok (),
    describeSecurityGroupsResult := Except.ok ["sg-0a1b2c"],
    deleteSecurityGroupResult := Except.ok "sg deleted" }

/-- envAllOk, except the IAM role does not exist: detach_role_policy and
delete_role both fail with NoSuchEntity. -/
def envRoleAbsent : AwsEnv :=
  { envAllOk with
    detachRolePolicyResult := Except.error "NoSuchEntity",
    deleteRoleResult := Except.error "NoSuchEntity" }

/-- envAllOk, except the role already exists, so create_role fails. -/
def envRoleExists : AwsEnv :=
  { envAllOk with createRoleResult := Except.error "EntityAlreadyExists" }

/-- envAllOk, except public-IP discovery fails. -/
def envNoIp : AwsEnv :=
  { envAllOk with httpGetIpResult := Except.error "connection timed out" }

/-- envAllOk, except creating the security group fails. -/
def envSgCreateFails : AwsEnv :=
  { envAllOk with createSecurityGroupResult := Except.error "UnauthorizedOperation" }

/-- envAllOk, except the cluster is still creating (no endpoint yet). -/
def envCreating : AwsEnv :=
  { envAllOk with
    describeClustersResult :=
      Except.ok ({ clusterStatus := "creating", endpointAddress := "" } : ClusterDesc) }

end SpotifyDWH

namespace SpotifyDWH

/-- C1: in the transform stage's ordered list `insert_table_queries`
(executed front to back by `insert_tables`), the statement inserting into
the `songplays` fact table stands first, before the inserts into the
dimension tables `users`, `songs`, `artists` and `time`. -/
theorem C1_songplays_fact_insert_first :
    insert_table_queries.map insertTarget =
      [some "songplays", some "users", some "songs", some "artists", some "time"] := by
  decide

/-- Helper: when every statement of the list succeeds, the runner loop
executes and commits each statement in list order and returns success. -/
theorem run_queries_all_ok (ex : String → Except String Unit) :
    ∀ qs : List String, (∀ q ∈ qs, ex q = Except.ok ()) →
      run_queries ex qs = (Except.ok (), commitAfterEach qs) := by
  intro qs
  induction qs with
  | nil => intro _; rfl
  | cons q rest ih =>
    intro h
    have hq := h q (List.mem_cons_self q rest)
    have hrest := ih (fun p hp => h p (List.mem_cons_of_mem q hp))
    simp [run_queries, hq, hrest, commitAfterEach]

/-- Helper: when every statement before `q` succeeds and `q` fails, the
runner loop stops at `q`: the failing error is returned and nothing after
`q` is executed. -/
theorem run_queries_stops_at_error (ex : String → Except String Unit)
    (q : String) (e : String) :
    ∀ pre post : List String, (∀ p ∈ pre, ex p = Except.ok ()) →
      ex q = Except.error e →
      run_queries ex (pre ++ q :: post) =
        (Except.error e, commitAfterEach pre ++ [DbAction.execute q]) := by
  intro pre
  induction pre with
  | nil => intro post _ hq; simp [run_queries, hq, commitAfterEach]
  | cons p ps ih =>
    intro post h hq
    have hp := h p (List.mem_cons_self p ps)
    have hrest := ih post (fun x hx => h x (List.mem_cons_of_mem p hx)) hq
    simp [run_queries, hp, hrest, commitAfterEach]

/-- C6: each schema/load/transform runner is `run_queries` over its fixed
statement list, and `run_queries` executes the list in order against the
one connection, committing right after every single statement; when all
statements succeed the trace is exactly execute-commit per statement in
list order, and when a statement fails every earlier statement has been
executed and committed, the failing statement was executed but not
committed, no later statement runs, and the exception is returned to the
caller unchanged (no retry, no resume). -/
theorem C6_runners_execute_in_order_commit_each
    (ex : String → Except String Unit) (cfg : Config) :
    (∀ qs : List String,
      ((∀ q ∈ qs, ex q = Except.ok ()) →
        run_queries ex qs = (Except.ok (), commitAfterEach qs))
      ∧ (∀ pre q post e, qs = pre ++ q :: post →
          (∀ p ∈ pre, ex p = Except.ok ()) → ex q = Except.error e →
          run_queries ex qs =
            (Except.error e, commitAfterEach pre ++ [DbAction.execute q])))
    ∧ drop_tables ex = run_queries ex drop_table_queries
    ∧ create_tables ex = run_queries ex create_table_queries
    ∧ load_staging_tables ex cfg = run_queries ex (copy_table_queries cfg)
    ∧ insert_tables ex = run_queries ex insert_table_queries := by
  refine ⟨fun qs => ⟨fun h => run_queries_all_ok ex qs h, ?_⟩, rfl, rfl, rfl, rfl⟩
  intro pre q post e hsplit hpre hq
  rw [hsplit]
  exact run_queries_stops_at_error ex q e pre post hpre hq

/-- C7: a row is produced by the songplays INSERT ... SELECT exactly when
some staging-events row and some staging-songs row agree exactly and
non-NULL-ly on (artist name, duration, title) and the row is the SELECT
list applied to that pair; no other (fuzzy or partial) match produces a
fact row. -/
theorem C7_songplay_exact_join_characterisation
    (events : List StagingEventRow) (songs : List StagingSongRow)
    (r : SongplayRow) :
    r ∈ songplayRows events songs ↔
      ∃ e ∈ events, ∃ s ∈ songs,
        (nullEq e.artist s.artist_name && nullEq e.length s.duration
          && nullEq e.song s.title) = true
        ∧ r = songplayOf e s := by
  simp only [songplayRows, songplayJoinCond, List.mem_flatMap, List.mem_map,
    List.mem_filter]
  constructor
  · rintro ⟨e, he, s, ⟨hs, hcond⟩, hr⟩
    exact ⟨e, he, s, hs, hcond, hr.symm⟩
  · rintro ⟨e, he, s, hs, hcond, hr⟩
    exact ⟨e, he, s, ⟨hs, hcond⟩, hr.symm⟩

/-- C2 counterexample: in an environment where the IAM role does not exist
(detach_role_policy and delete_role fail with NoSuchEntity),
delete_iam_role raises: the exception reaches the caller, refuting "no
delete operation raises on a nonexistent resource" for the role delete. -/
theorem C2_role_delete_raises_counterexample :
    (delete_iam_role envRoleAbsent "dwh_iam_role").1 =
      Except.error (PyErr.aws "NoSuchEntity") := by
  rfl

/-- C2 amended: deleting a nonexistent security group or cluster does not
raise (both functions swallow every exception and return None in every
environment), but deleting a nonexistent IAM role raises: the failure of
the unguarded detach_role_policy call propagates to the caller. -/
theorem C2_delete_idempotency_amended (env : AwsEnv)
    (gname cid rname e : String) :
    (delete_security_group env gname).1 = Except.ok ()
    ∧ (delete_redshift_cluster env cid).1 = Except.ok ()
    ∧ (env.detachRolePolicyResult = Except.error e →
        (delete_iam_role env rname).1 = Except.error (PyErr.aws e)) := by
  refine ⟨?_, ?_, ?_⟩
  · rcases hs : env.describeSecurityGroupsResult with he | ⟨_ | ⟨g, gs⟩⟩ <;>
      rcases hd : env.deleteSecurityGroupResult with he2 | r2 <;>
      simp [delete_security_group, hs, hd]
  · rcases hc : env.deleteClusterResult with he | r <;>
      simp [delete_redshift_cluster, hc]
  · intro h
    simp [delete_iam_role, h]

/-- C3 counterexample: in an environment where public-IP discovery fails
(and everything before it succeeds), init does report the fatal error, but
the security group has already been created when the failure is reported —
refuting "no group has been created when the failure is reported". -/
theorem C3_group_created_before_failure_counterexample :
    (init envNoIp cfgX).1 =
      Except.error (PyErr.exn "Failed to retrieve public IP address")
    ∧ Action.createSecurityGroupCall "Authorise redshift cluster access"
        "redshift_security_group" ∈ (init envNoIp cfgX).2 := by
  decide

/-- C3 amended: when public-IP discovery fails, init raises the fatal
"Failed to retrieve public IP address" error before opening network
access — no authorize_ingress and no create_cluster call is issued — but
the security group has already been created before the failure is
reported, so a group is left half-configured (created, with no ingress
rule). -/
theorem C3_init_fails_after_group_creation_amended (env : AwsEnv)
    (cfg : Config) (arn gid e : String)
    (hAttach : env.attachRolePolicyResult = Except.ok ())
    (hArn : env.getRoleArnResult = Except.ok arn)
    (hSg : env.createSecurityGroupResult = Except.ok gid)
    (hIp : env.httpGetIpResult = Except.error e) :
    (init env cfg).1 =
      Except.error (PyErr.exn "Failed to retrieve public IP address")
    ∧ (∀ g c p f t2, Action.authorizeIngressCall g c p f t2 ∉ (init env cfg).2)
    ∧ (∀ ct nt n dn ci mu mp v ir,
        Action.createClusterCall ct nt n dn ci mu mp v ir ∉ (init env cfg).2)
    ∧ Action.createSecurityGroupCall "Authorise redshift cluster access"
        "redshift_security_group" ∈ (init env cfg).2 := by
  rcases h0 : env.createRoleResult with e0 | v0 <;>
    simp [init, create_iam_role, create_security_group, get_public_ip,
      h0, hAttach, hArn, hSg, hIp]

/-- C3 witness: the amended theorem applied to the concrete environment
envNoIp (public-IP lookup times out, every earlier call succeeds). -/
theorem C3_init_fails_after_group_creation_witness :
    (init envNoIp cfgX).1 =
      Except.error (PyErr.exn "Failed to retrieve public IP address") :=
  (C3_init_fails_after_group_creation_amended envNoIp cfgX
    "arn:aws:iam::123456789012:role/dwh_iam_role" "sg-0a1b2c"
    "connection timed out" rfl rfl rfl rfl).1

/-- C4: when describe_clusters reports a cluster, get_cluster_info returns
(state, None) whenever the observed state is not "available", and
(state, endpoint) with the (non-empty, as the provider reports it for an
available cluster) endpoint address whenever the observed state is
"available". -/
theorem C4_status_pair_shape (env : AwsEnv) (desc : ClusterDesc)
    (h : env.describeClustersResult = Except.ok desc) :
    (desc.clusterStatus ≠ "available" →
      (get_cluster_info env).1 = (some desc.clusterStatus, none))
    ∧ (desc.clusterStatus = "available" → desc.endpointAddress ≠ "" →
      ∃ ep, (get_cluster_info env).1 = (some desc.clusterStatus, some ep)
        ∧ ep ≠ "") := by
  constructor
  · intro hne
    simp [get_cluster_info, h, hne]
  · intro hav hne
    exact ⟨desc.endpointAddress, by simp [get_cluster_info, h, hav], hne⟩

/-- C4 witness: the theorem applied to the concrete environment envAllOk,
whose cluster is available with a non-empty endpoint address. -/
theorem C4_status_pair_shape_witness :
    ∃ ep, (get_cluster_info envAllOk).1 = (some "available", some ep)
      ∧ ep ≠ "" :=
  (C4_status_pair_shape envAllOk
    { clusterStatus := "available",
      endpointAddress := "dwhcluster.abc123.us-west-2.redshift.amazonaws.com" }
    rfl).2 rfl (by decide)

/-- C5: when create_role fails (the role already exists) while
attach_role_policy and get_role succeed, create_iam_role prints the
creation failure instead of raising it, still issues the policy
attachment and the ARN read-back, and returns the ARN. -/
theorem C5_create_role_swallows_already_exists (env : AwsEnv)
    (name e arn : String)
    (hCreate : env.createRoleResult = Except.error e)
    (hAttach : env.attachRolePolicyResult = Except.ok ())
    (hArn : env.getRoleArnResult = Except.ok arn) :
    (create_iam_role env name).1 = Except.ok arn
    ∧ Action.printed e ∈ (create_iam_role env name).2
    ∧ Action.attachRolePolicyCall name s3ReadOnlyPolicyArn
        ∈ (create_iam_role env name).2
    ∧ Action.getRoleCall name ∈ (create_iam_role env name).2 := by
  simp [create_iam_role, hCreate, hAttach, hArn]

/-- C5 witness: the theorem applied to envRoleExists, where create_role
fails with EntityAlreadyExists and the rest succeeds. -/
theorem C5_create_role_swallows_already_exists_witness :
    (create_iam_role envRoleExists "dwh_iam_role").1 =
      Except.ok "arn:aws:iam::123456789012:role/dwh_iam_role" :=
  (C5_create_role_swallows_already_exists envRoleExists "dwh_iam_role"
    "EntityAlreadyExists" "arn:aws:iam::123456789012:role/dwh_iam_role"
    rfl rfl rfl).1

/-- C8 counterexample: in an environment where the IAM role does not exist,
the teardown subcommand raises out of delete_iam_role before requesting
cluster deletion: no delete_cluster call and no 5-second sleep happen, so
the fixed four-step sequence is not performed on this invocation. -/
theorem C8_teardown_aborts_counterexample :
    (delete envRoleAbsent cfgX).1 = Except.error (PyErr.aws "NoSuchEntity")
    ∧ deletedClusterIds (delete envRoleAbsent cfgX).2 = []
    ∧ Action.sleepCall 5 ∉ (delete envRoleAbsent cfgX).2 := by
  decide

/-- C8 amended: whenever the IAM role deletion succeeds, the teardown
subcommand issues exactly this call sequence: detach the role policy and
delete the IAM role, then request deletion of the configured cluster
(skipping the final snapshot), then sleep a fixed 5 seconds, then look up
the security group by name and delete it when one was found — in that
order.  When the IAM role deletion raises, the remaining steps never
run. -/
theorem C8_teardown_sequence_amended (env : AwsEnv) (cfg : Config) (r : String)
    (h1 : env.detachRolePolicyResult = Except.ok ())
    (h2 : env.deleteRoleResult = Except.ok r) :
    (delete env cfg).1 = Except.ok ()
    ∧ ∃ sgCalls, callsOf (delete env cfg).2 =
        [Action.detachRolePolicyCall "dwh_iam_role" s3ReadOnlyPolicyArn,
         Action.deleteRoleCall "dwh_iam_role",
         Action.deleteClusterCall cfg.cluster_id true,
         Action.sleepCall 5,
         Action.describeSecurityGroupsCall "redshift_security_group"] ++ sgCalls
      ∧ (sgCalls = []
         ∨ sgCalls = [Action.deleteSecurityGroupCall "redshift_security_group"]) := by
  refine ⟨by simp [delete, delete_iam_role, h1, h2], ?_⟩
  rcases hs : env.describeSecurityGroupsResult with es | (_ | ⟨g, gs⟩)
  · refine ⟨[], ?_, Or.inl rfl⟩
    rcases hc : env.deleteClusterResult with ec | uc <;>
      simp [delete, delete_iam_role, delete_redshift_cluster,
        delete_security_group, callsOf, h1, h2, hc, hs]
  · refine ⟨[], ?_, Or.inl rfl⟩
    rcases hc : env.deleteClusterResult with ec | uc <;>
      simp [delete, delete_iam_role, delete_redshift_cluster,
        delete_security_group, callsOf, h1, h2, hc, hs]
  · refine ⟨[Action.deleteSecurityGroupCall "redshift_security_group"],
      ?_, Or.inr rfl⟩
    rcases hc : env.deleteClusterResult with ec | uc <;>
      rcases hd : env.deleteSecurityGroupResult with ed | ud <;>
      simp [delete, delete_iam_role, delete_redshift_cluster,
        delete_security_group, callsOf, h1, h2, hc, hd, hs]

/-- C8 witness: the amended theorem applied to the concrete environment
envAllOk with the sample configuration. -/
theorem C8_teardown_sequence_witness :
    (delete envAllOk cfgX).1 = Except.ok () :=
  (C8_teardown_sequence_amended envAllOk cfgX "role deleted" rfl rfl).1

/-- C9: the status read queries the hard-coded cluster identifier
"dwhCluster" whatever the configuration holds, while teardown deletes the
cluster named by the configured cluster_id; when the configured cluster_id
differs from "dwhCluster", status and delete address different clusters. -/
theorem C9_status_and_delete_address_different_clusters
    (env : AwsEnv) (cfg : Config) (r : String)
    (h1 : env.detachRolePolicyResult = Except.ok ())
    (h2 : env.deleteRoleResult = Except.ok r) :
    describedClusterIds (status env).2 = ["dwhCluster"]
    ∧ deletedClusterIds (delete env cfg).2 = [cfg.cluster_id]
    ∧ (cfg.cluster_id ≠ "dwhCluster" →
        ∀ x ∈ describedClusterIds (status env).2,
          x ∉ deletedClusterIds (delete env cfg).2) := by
  have hstat : describedClusterIds (status env).2 = ["dwhCluster"] := by
    rcases hd : env.describeClustersResult with e | desc
    · simp [status, get_cluster_info, hd, describedClusterIds]
    · rcases hb : desc.clusterStatus == "available" <;>
        simp [status, get_cluster_info, hd, hb, describedClusterIds]
  have hdel : deletedClusterIds (delete env cfg).2 = [cfg.cluster_id] := by
    rcases hs : env.describeSecurityGroupsResult with es | (_ | ⟨g, gs⟩) <;>
      rcases hc : env.deleteClusterResult with ec | uc <;>
      rcases hdl : env.deleteSecurityGroupResult with ed | ud <;>
      simp [delete, delete_iam_role, delete_redshift_cluster,
        delete_security_group, deletedClusterIds, h1, h2, hs, hc, hdl]
  refine ⟨hstat, hdel, ?_⟩
  intro hne x hx
  rw [hstat] at hx
  rw [hdel]
  simp only [List.mem_singleton] at hx
  subst hx
  simp only [List.mem_singleton]
  exact fun hcc => hne hcc.symm

/-- C9 witness: the theorem applied to envAllOk and the sample
configuration, whose cluster_id "my-dwh-cluster" differs from
"dwhCluster". -/
theorem C9_status_and_delete_witness :
    describedClusterIds (status envAllOk).2 = ["dwhCluster"]
    ∧ deletedClusterIds (delete envAllOk cfgX).2 = ["my-dwh-cluster"]
    ∧ "dwhCluster" ∉ deletedClusterIds (delete envAllOk cfgX).2 := by
  have h := C9_status_and_delete_address_different_clusters envAllOk cfgX
    "role deleted" rfl rfl
  exact ⟨h.1, h.2.1,
    h.2.2 (by decide) "dwhCluster" (by rw [h.1]; exact List.mem_singleton.mpr rfl)⟩

/-- C10: when create_security_group's underlying creation call raises, the
except branch prints the error and falls through, and the function then
fails with an UnboundLocalError on `return security_group`: it neither
returns a security-group object nor propagates the original failure. -/
theorem C10_create_security_group_unbound_local (env : AwsEnv)
    (gname e : String)
    (h : env.createSecurityGroupResult = Except.error e) :
    (create_security_group env gname).1 =
      Except.error (PyErr.unboundLocal "security_group")
    ∧ Action.printed ("Error creating security group: " ++ e)
        ∈ (create_security_group env gname).2
    ∧ (∀ sg, (create_security_group env gname).1 ≠ Except.ok sg)
    ∧ (create_security_group env gname).1 ≠ Except.error (PyErr.aws e) := by
  simp [create_security_group, h]

/-- C10 witness: the theorem applied to envSgCreateFails, where the group
creation call fails with UnauthorizedOperation. -/
theorem C10_create_security_group_unbound_local_witness :
    (create_security_group envSgCreateFails "redshift_security_group").1 =
      Except.error (PyErr.unboundLocal "security_group") :=
  (C10_create_security_group_unbound_local envSgCreateFails
    "redshift_security_group" "UnauthorizedOperation" rfl).1

end SpotifyDWH
